import Mathlib

/-!
Verification of the filter pipeline of borderlesshq/pongo2 (src/filters.go):
a registry of named filter functions, the filter invoker ApplyFilter, the
filter-call node with its Execute method, and the parseFilter grammar rule.

The Go code is shallowly embedded: the process-wide sync.Map registry
becomes an association list threaded explicitly through the registry
operations; Go pointers that may be nil become Option; functions returning
Go (value, error) pairs become Lean pairs of Options. Collaborators that
are not part of the provided source (value.go, error.go, parser.go) are
modelled from the specification and marked as such in their doc comments.
-/

set_option autoImplicit false

namespace Pongo2

/-- Modelled from the spec: the runtime value representation (value.go is
not part of the provided source). A value wraps an underlying Go datum;
the canonical "no parameter" sentinel is the value built from nil. -/
inductive GoVal where
  | nil
  | int (n : Int)
  | str (s : String)
deriving DecidableEq

/-- Modelled from the spec: the opaque Value container of the engine
(value.go is not part of the provided source). -/
structure Value where
  val : GoVal
deriving DecidableEq

/-- Modelled from the spec: AsValue builds a Value from a Go datum; the
"no parameter" sentinel is AsValue applied to nil. -/
def AsValue (g : GoVal) : Value := ⟨g⟩

/-- Template identity, used only for error enrichment (the Template type
itself is outside the provided source). -/
abbrev TemplateId := Nat

/-- Token types of the lexer (lexer.go is not part of the provided
source; modelled from the spec as the token-stream collaborator). -/
inductive TokenType where
  | html
  | keyword
  | identifier
  | str
  | number
  | symbol
deriving DecidableEq

/-- A lexer token: type, literal value and source position. -/
structure Token where
  typ : TokenType
  val : String
  line : Nat
  col : Nat
deriving DecidableEq

/-- Structured underlying causes of errors produced in filters.go. Each
constructor stands for one fmt.Errorf / parser message of the source:
filterNotFound for "filter with name ... not found" (ApplyFilter),
filterNameMustBeIdentifier and filterDoesNotExist and
filterParameterRequired for the three parseFilter messages, and custom
for errors produced by filter functions or argument evaluators. -/
inductive OrigErr where
  | filterNotFound (name : String)
  | filterNameMustBeIdentifier
  | filterDoesNotExist (name : String)
  | filterParameterRequired
  | unexpectedEnd
  | notVariableOrLiteral
  | custom (tag : Nat)
deriving DecidableEq

/-- Modelled from the spec: the pongo2 Error type (error.go is not part
of the provided source) carries a sender tag, an underlying cause, and an
optional owning template and source-location token. -/
structure Error where
  sender : String
  origError : OrigErr
  template : Option TemplateId
  token : Option Token
deriving DecidableEq

/-- Modelled from the spec: attach the given token and template identity
to the error if it does not already carry a source location; otherwise
leave the error unchanged (error.go is not part of the provided source). -/
def Error.updateFromTokenIfNeeded (e : Error) (tmpl : Option TemplateId) (t : Token) : Error :=
  if e.token.isSome then e
  else { e with token := some t, template := tmpl }

/-- The bound-variables mapping (Go map[string]any, restricted to the
representable data). -/
abbrev Bind := List (String × GoVal)

/-- FilterFunction is the type filter functions must fulfil
(src/filters.go line 9). Go pointers in and out that may be nil become
Option Value; the Go (out, err) pair becomes a Lean pair. -/
abbrev FilterFunction := Option Value → Option Value → Bind → Option Value × Option Error

/-- Structured Go errors returned by the registry operations, one
constructor per fmt.Errorf message: alreadyRegistered for "filter with
name ... is already registered" (RegisterFilter) and doesNotExist for
"filter with name ... does not exist (therefore cannot be overridden)"
(ReplaceFilter). -/
inductive GoError where
  | alreadyRegistered (name : String)
  | doesNotExist (name : String)
deriving DecidableEq

/-- The filter registry: the process-wide sync.Map of src/filters.go
line 12, embedded as an association list threaded through the
operations. -/
abbrev Filters := List (String × FilterFunction)

/-- Load of the registry map (sync.Map.Load): the first entry stored
under the name, if any. -/
def load (fs : Filters) (name : String) : Option FilterFunction :=
  match fs with
  | [] => none
  | kv :: rest => if kv.1 = name then some kv.2 else load rest name

/-- Store of the registry map (sync.Map.Store): set the entry for the
name, replacing an existing one. -/
def store (fs : Filters) (name : String) (fn : FilterFunction) : Filters :=
  match fs with
  | [] => [(name, fn)]
  | kv :: rest => if kv.1 = name then (name, fn) :: rest else kv :: store rest name fn

/-- Delete of the registry map (sync.Map.Delete): drop the entry for the
name. -/
def delete (fs : Filters) (name : String) : Filters :=
  match fs with
  | [] => []
  | kv :: rest => if kv.1 = name then delete rest name else kv :: delete rest name

/-- Swap of the registry map (sync.Map.Swap): store the new function and
return the previous entry. -/
def swap (fs : Filters) (name : String) (fn : FilterFunction) :
    Filters × Option FilterFunction :=
  (store fs name fn, load fs name)

/-- FilterExists returns true if the given filter is already registered
(src/filters.go lines 19-22). -/
def FilterExists (fs : Filters) (name : String) : Bool :=
  (load fs name).isSome

/-- RegisterFilter registers a new filter; fails if a filter with the
same name is already registered (src/filters.go lines 28-35). The
returned pair is the updated registry and the Go error. -/
def RegisterFilter (fs : Filters) (name : String) (fn : FilterFunction) :
    Filters × Option GoError :=
  if FilterExists fs name then (fs, some (GoError.alreadyRegistered name))
  else (store fs name fn, none)

/-- ReplaceFilter replaces an already registered filter with a new
implementation; fails if the name is not registered (src/filters.go
lines 39-45). -/
def ReplaceFilter (fs : Filters) (name : String) (fn : FilterFunction) :
    Filters × Option GoError :=
  if !FilterExists fs name then (fs, some (GoError.doesNotExist name))
  else ((swap fs name fn).1, none)

/-- OverrideFilter deletes any current entry for the name and stores the
new function; it always succeeds (src/filters.go lines 47-51). -/
def OverrideFilter (fs : Filters) (name : String) (fn : FilterFunction) :
    Filters × Option GoError :=
  let fs1 := delete fs name
  (store fs1 name fn, none)

/-- ApplyFilter applies a filter to a given value using the given
parameters (src/filters.go lines 64-80): look the name up, fail with an
"applyfilter" error if absent, replace a nil parameter by the sentinel
AsValue nil, and return the filter function result verbatim. -/
def ApplyFilter (fs : Filters) (name : String) (value : Option Value)
    (param : Option Value) (bind : Bind) : Option Value × Option Error :=
  match load fs name with
  | none =>
      (none, some { sender := "applyfilter", origError := OrigErr.filterNotFound name,
                    template := none, token := none })
  | some fn =>
      let param1 := if param = none then some (AsValue GoVal.nil) else param
      fn value param1 bind

/-- Modelled from the spec: the render-time context collaborator exposes
the publicly bound variables and the owning template identity for error
enrichment (context.go is not part of the provided source). -/
structure ExecutionContext where
  Public : Bind
  template : Option TemplateId

/-- Modelled from the spec: an argument expression is a lazily-evaluated
expression, evaluated against the render context to a Go (value, error)
pair (the IEvaluator interface of the surrounding grammar is not part of
the provided source). -/
abbrev IEvaluator := ExecutionContext → Option Value × Option Error

/-- The parsed representation of one filter application (src/filters.go
lines 82-89): source token, filter name, optional unevaluated parameter
expression, and the filter function resolved at parse time. -/
structure filterCall where
  token : Token
  name : String
  parameter : Option IEvaluator
  filterFunc : FilterFunction

/-- Parameter resolution step of filterCall.Execute (src/filters.go
lines 92-102): evaluate the stored parameter expression against the
context when present, otherwise use the sentinel AsValue nil. -/
def filterCall.evalParam (fc : filterCall) (ctx : ExecutionContext) :
    Option Value × Option Error :=
  match fc.parameter with
  | some pe => pe ctx
  | none => (some (AsValue GoVal.nil), none)

/-- Execute of a filter-call node (src/filters.go lines 91-109): resolve
the parameter, propagate an evaluation error unchanged, invoke the bound
filter function, and on a filter error attach this node token and the
owning template if the error carries no location yet. -/
def filterCall.Execute (fc : filterCall) (v : Option Value) (ctx : ExecutionContext) :
    Option Value × Option Error :=
  match fc.evalParam ctx with
  | (_, some err) => (none, some err)
  | (param, none) =>
      match fc.filterFunc v param ctx.Public with
      | (_, some err) => (none, some (err.updateFromTokenIfNeeded ctx.template fc.token))
      | (filteredValue, none) => (filteredValue, none)

/-- Modelled from the spec: the token-stream collaborator (parser.go is
not part of the provided source), a token list with a cursor. -/
structure Parser where
  tokens : List Token
  idx : Nat

/-- The token at the cursor, if any. -/
def Parser.currentTok (p : Parser) : Option Token :=
  p.tokens[p.idx]?

/-- Move the cursor one token forward. -/
def Parser.advance (p : Parser) : Parser :=
  ⟨p.tokens, p.idx + 1⟩

/-- Modelled from the spec: match a token of the given type, consuming
and returning it on success, returning none and leaving the stream in
place otherwise. -/
def Parser.MatchType (p : Parser) (t : TokenType) : Option Token × Parser :=
  match p.currentTok with
  | some tok => if tok.typ = t then (some tok, p.advance) else (none, p)
  | none => (none, p)

/-- Modelled from the spec: match a token of the given type and literal
value, consuming and returning it on success. -/
def Parser.MatchTok (p : Parser) (t : TokenType) (v : String) : Option Token × Parser :=
  match p.currentTok with
  | some tok => if tok.typ = t ∧ tok.val = v then (some tok, p.advance) else (none, p)
  | none => (none, p)

/-- Modelled from the spec: peek at a token of the given type and literal
value without consuming it. -/
def Parser.Peek (p : Parser) (t : TokenType) (v : String) : Option Token :=
  match p.currentTok with
  | some tok => if tok.typ = t ∧ tok.val = v then some tok else none
  | none => none

/-- Modelled from the spec: the location-carrying parse-error constructor
of the token-stream collaborator; the produced error carries the sender
tag "parser" and the given token (possibly absent) as its source
location. -/
def Parser.mkErr (_p : Parser) (e : OrigErr) (tok : Option Token) : Error :=
  { sender := "parser", origError := e, template := none, token := tok }

/-- Evaluator of a variable-reference argument: look the name up among
the publicly bound variables of the render context (modelled from the
spec; the real variable resolver is outside the provided source). -/
def varEval (name : String) : IEvaluator :=
  fun ctx =>
    match ctx.Public.find? (fun kv => kv.1 = name) with
    | some kv => (some (AsValue kv.2), none)
    | none => (some (AsValue GoVal.nil), none)

/-- Value denoted by a literal token: its integer reading for a number
token, its text otherwise. -/
def litValue (tok : Token) : Value :=
  if tok.typ = TokenType.number then AsValue (GoVal.int ((tok.val.toInt?).getD 0))
  else AsValue (GoVal.str tok.val)

/-- Evaluator of a literal argument: a constant, independent of the
render context. -/
def litEval (tok : Token) : IEvaluator :=
  fun _ => (some (litValue tok), none)

/-- Modelled from the spec: the surrounding expression grammar parses a
variable reference or a literal at the current position, yielding an
unevaluated argument expression, and fails with a parse error on any
other token (parseVariableOrLiteral lives in variable.go, not part of
the provided source). -/
def Parser.parseVariableOrLiteral (p : Parser) : Parser × Except Error IEvaluator :=
  match p.currentTok with
  | none => (p, Except.error (p.mkErr OrigErr.unexpectedEnd none))
  | some tok =>
      if tok.typ = TokenType.identifier then
        (p.advance, Except.ok (varEval tok.val))
      else if tok.typ = TokenType.number ∨ tok.typ = TokenType.str then
        (p.advance, Except.ok (litEval tok))
      else
        (p, Except.error (p.mkErr OrigErr.notVariableOrLiteral none))

/-- The grammar rule Filter = IDENT | IDENT ":" FilterArg of
src/filters.go lines 112-149: consume the identifier (syntax error with
no token if absent), resolve it against the registry at parse time
(UnknownFilter error at the identifier token if unresolved), then parse
the optional ":"-introduced argument, failing with the missing-argument
error when the block terminator follows the colon, and store the parsed
argument expression unevaluated on the node. -/
def parseFilter (fs : Filters) (p : Parser) :
    Parser × Option filterCall × Option Error :=
  match p.MatchType TokenType.identifier with
  | (none, p1) => (p1, none, some (p1.mkErr OrigErr.filterNameMustBeIdentifier none))
  | (some identToken, p1) =>
      match load fs identToken.val with
      | none =>
          (p1, none,
           some (p1.mkErr (OrigErr.filterDoesNotExist identToken.val) (some identToken)))
      | some filterFn =>
          match p1.MatchTok TokenType.symbol ":" with
          | (none, p2) =>
              (p2, some { token := identToken, name := identToken.val,
                          parameter := none, filterFunc := filterFn }, none)
          | (some _, p2) =>
              if (p2.Peek TokenType.symbol "\x7d\x7d").isSome then
                (p2, none, some (p2.mkErr OrigErr.filterParameterRequired none))
              else
                match p2.parseVariableOrLiteral with
                | (p3, Except.error err) => (p3, none, some err)
                | (p3, Except.ok v) =>
                    (p3, some { token := identToken, name := identToken.val,
                                parameter := some v, filterFunc := filterFn }, none)

theorem load_store_self (fs : Filters) (n : String) (fn : FilterFunction) :
    load (store fs n fn) n = some fn := by
  induction fs with
  | nil => simp [store, load]
  | cons kv rest ih =>
      by_cases h : kv.1 = n
      · simp [store, h, load]
      · simp [store, h, load, ih]

theorem load_delete_self (fs : Filters) (n : String) :
    load (delete fs n) n = none := by
  induction fs with
  | nil => simp [delete, load]
  | cons kv rest ih =>
      by_cases h : kv.1 = n
      · simp [delete, h, ih]
      · simp [delete, h, load, ih]

theorem filterExists_store_self (fs : Filters) (n : String) (fn : FilterFunction) :
    FilterExists (store fs n fn) n = true := by
  simp [FilterExists, load_store_self]

theorem load_eq_none_of_not_exists (fs : Filters) (n : String)
    (h : FilterExists fs n = false) : load fs n = none := by
  cases hl : load fs n with
  | none => rfl
  | some f => simp [FilterExists, hl] at h

/-- A sample filter function returning the constant integer k, used to
instantiate the registry theorems on concrete inputs. -/
def constFilter (k : Int) : FilterFunction :=
  fun _ _ _ => (some (AsValue (GoVal.int k)), none)

/-- A sample filter function returning its parameter unchanged, which
makes the "no parameter" sentinel observable in the output. -/
def echoParam : FilterFunction :=
  fun _ p _ => (p, none)

/-- C1: for every name n and filter functions f and g, Register(n,f)
then Register(n,g) makes the second call return the duplicate
registration error, leaves the registry entry for n unchanged, and a
subsequent ApplyFilter(n, ...) still invokes f. -/
theorem register_duplicate_keeps_first (fs : Filters) (n : String)
    (f g : FilterFunction) (v : Option Value) (pv : Value) (b : Bind)
    (h : FilterExists fs n = false) :
    (RegisterFilter fs n f).2 = none ∧
    RegisterFilter (RegisterFilter fs n f).1 n g =
      ((RegisterFilter fs n f).1, some (GoError.alreadyRegistered n)) ∧
    load (RegisterFilter fs n f).1 n = some f ∧
    ApplyFilter (RegisterFilter fs n f).1 n v (some pv) b = f v (some pv) b := by
  have h1 : RegisterFilter fs n f = (store fs n f, none) := by
    simp [RegisterFilter, h]
  refine ⟨by simp [h1], ?_, ?_, ?_⟩
  · rw [h1]
    simp [RegisterFilter, FilterExists, load_store_self]
  · rw [h1]
    simp [load_store_self]
  · rw [h1]
    simp [ApplyFilter, load_store_self]

theorem register_duplicate_keeps_first_witness :
    FilterExists ([] : Filters) "double" = false ∧
    ((RegisterFilter ([] : Filters) "double" (constFilter 1)).2 = none ∧
     RegisterFilter (RegisterFilter ([] : Filters) "double" (constFilter 1)).1
         "double" (constFilter 2) =
       ((RegisterFilter ([] : Filters) "double" (constFilter 1)).1,
        some (GoError.alreadyRegistered "double")) ∧
     load (RegisterFilter ([] : Filters) "double" (constFilter 1)).1 "double" =
       some (constFilter 1) ∧
     ApplyFilter (RegisterFilter ([] : Filters) "double" (constFilter 1)).1
         "double" (some (AsValue (GoVal.int 3))) (some (AsValue (GoVal.int 5))) [] =
       constFilter 1 (some (AsValue (GoVal.int 3))) (some (AsValue (GoVal.int 5))) []) :=
  ⟨rfl, register_duplicate_keeps_first [] "double" (constFilter 1) (constFilter 2)
    (some (AsValue (GoVal.int 3))) (AsValue (GoVal.int 5)) [] rfl⟩

/-- C2: for every name n not present in the registry, ApplyFilter fails
with the unknown-filter error whose sender tag is "applyfilter" (and the
registry, which ApplyFilter only reads, is unchanged by construction). -/
theorem applyFilter_unknown (fs : Filters) (n : String) (v : Option Value)
    (p : Option Value) (b : Bind) (h : FilterExists fs n = false) :
    ApplyFilter fs n v p b =
      (none, some { sender := "applyfilter", origError := OrigErr.filterNotFound n,
                    template := none, token := none }) := by
  simp [ApplyFilter, load_eq_none_of_not_exists fs n h]

theorem applyFilter_unknown_witness :
    FilterExists ([("upper", constFilter 0)] : Filters) "missing" = false ∧
    ApplyFilter ([("upper", constFilter 0)] : Filters) "missing"
        (some (AsValue (GoVal.str "x"))) none [] =
      (none, some { sender := "applyfilter",
                    origError := OrigErr.filterNotFound "missing",
                    template := none, token := none }) :=
  ⟨by decide, applyFilter_unknown [("upper", constFilter 0)] "missing"
    (some (AsValue (GoVal.str "x"))) none [] (by decide)⟩

/-- C3: for every registered name n, ApplyFilter with an absent
parameter invokes the registered function with the sentinel built from
nil in place of the parameter, and returns the function result
verbatim, including any error the function raises. -/
theorem applyFilter_nil_param_sentinel (fs : Filters) (n : String)
    (f : FilterFunction) (v : Option Value) (b : Bind) (h : load fs n = some f) :
    ApplyFilter fs n v none b = f v (some (AsValue GoVal.nil)) b := by
  simp [ApplyFilter, h]

theorem applyFilter_nil_param_sentinel_witness :
    load ([("echo", echoParam)] : Filters) "echo" = some echoParam ∧
    ApplyFilter ([("echo", echoParam)] : Filters) "echo"
        (some (AsValue (GoVal.int 3))) none [] =
      echoParam (some (AsValue (GoVal.int 3))) (some (AsValue GoVal.nil)) [] :=
  ⟨rfl, applyFilter_nil_param_sentinel [("echo", echoParam)] "echo" echoParam
    (some (AsValue (GoVal.int 3))) [] rfl⟩

/-- C5: Replace on an unregistered name fails with the
missing-registration error, changes nothing, and Exists stays false;
Replace on a registered name succeeds and swaps the entry to g. -/
theorem replaceFilter_spec (fs fs2 : Filters) (n : String) (g : FilterFunction)
    (h0 : FilterExists fs n = false) (h1 : FilterExists fs2 n = true) :
    ReplaceFilter fs n g = (fs, some (GoError.doesNotExist n)) ∧
    FilterExists (ReplaceFilter fs n g).1 n = false ∧
    (ReplaceFilter fs2 n g).2 = none ∧
    load (ReplaceFilter fs2 n g).1 n = some g := by
  refine ⟨?_, ?_, ?_, ?_⟩ <;>
    simp [ReplaceFilter, h0, h1, swap, load_store_self]

theorem replaceFilter_spec_witness :
    FilterExists ([] : Filters) "trim" = false ∧
    FilterExists ([("trim", constFilter 1)] : Filters) "trim" = true ∧
    (ReplaceFilter ([] : Filters) "trim" (constFilter 2) =
       ([], some (GoError.doesNotExist "trim")) ∧
     FilterExists (ReplaceFilter ([] : Filters) "trim" (constFilter 2)).1 "trim" = false ∧
     (ReplaceFilter ([("trim", constFilter 1)] : Filters) "trim" (constFilter 2)).2 = none ∧
     load (ReplaceFilter ([("trim", constFilter 1)] : Filters) "trim" (constFilter 2)).1
         "trim" = some (constFilter 2)) :=
  ⟨rfl, rfl, replaceFilter_spec [] [("trim", constFilter 1)] "trim" (constFilter 2) rfl rfl⟩

/-- C6: Override always succeeds regardless of prior state; afterwards
the registry maps n to g and ApplyFilter invokes g, never a prior
registration. -/
theorem overrideFilter_spec (fs : Filters) (n : String) (g : FilterFunction)
    (v : Option Value) (pv : Value) (b : Bind) :
    (OverrideFilter fs n g).2 = none ∧
    load (OverrideFilter fs n g).1 n = some g ∧
    ApplyFilter (OverrideFilter fs n g).1 n v (some pv) b = g v (some pv) b := by
  refine ⟨rfl, ?_, ?_⟩
  · simp [OverrideFilter, load_store_self]
  · simp [OverrideFilter, ApplyFilter, load_store_self]

/-- C9: in Execute, when the filter function fails and its error carries
no source location yet, the node token and the owning template identity
are attached before propagation and no value is returned; on success the
filter result is the node result. The first node exercises the failing
case, the second the succeeding case. -/
theorem execute_error_enrichment (fc fc2 : filterCall) (v v2 pv pv2 : Option Value)
    (ctx ctx2 : ExecutionContext) (fv : Option Value) (e : Error) (out : Option Value)
    (hp : fc.evalParam ctx = (pv, none))
    (hf : fc.filterFunc v pv ctx.Public = (fv, some e))
    (he : e.token = none)
    (hp2 : fc2.evalParam ctx2 = (pv2, none))
    (hf2 : fc2.filterFunc v2 pv2 ctx2.Public = (out, none)) :
    fc.Execute v ctx =
      (none, some { e with token := some fc.token, template := ctx.template }) ∧
    fc2.Execute v2 ctx2 = (out, none) := by
  constructor
  · simp [filterCall.Execute, hp, hf, Error.updateFromTokenIfNeeded, he]
  · simp [filterCall.Execute, hp2, hf2]

/-- A sample token used to instantiate the execution theorems. -/
def tkDemo : Token := ⟨TokenType.identifier, "bad", 2, 4⟩

/-- A sample render context with a template identity. -/
def ctxDemo : ExecutionContext := ⟨[], some 11⟩

/-- A sample location-free error raised by a failing filter. -/
def errDemo : Error := ⟨"filter", OrigErr.custom 7, none, none⟩

/-- A sample filter function that always fails with errDemo. -/
def failFilter : FilterFunction := fun _ _ _ => (none, some errDemo)

theorem execute_error_enrichment_witness :
    (filterCall.evalParam ⟨tkDemo, "bad", none, failFilter⟩ ctxDemo =
       (some (AsValue GoVal.nil), none)) ∧
    failFilter (some (AsValue (GoVal.int 3))) (some (AsValue GoVal.nil))
        ctxDemo.Public = (none, some errDemo) ∧
    errDemo.token = none ∧
    (filterCall.evalParam ⟨tkDemo, "ok", none, constFilter 9⟩ ctxDemo =
       (some (AsValue GoVal.nil), none)) ∧
    constFilter 9 (some (AsValue (GoVal.int 3))) (some (AsValue GoVal.nil))
        ctxDemo.Public = (some (AsValue (GoVal.int 9)), none) ∧
    (filterCall.Execute ⟨tkDemo, "bad", none, failFilter⟩
         (some (AsValue (GoVal.int 3))) ctxDemo =
       (none, some { errDemo with token := some tkDemo, template := ctxDemo.template }) ∧
     filterCall.Execute ⟨tkDemo, "ok", none, constFilter 9⟩
         (some (AsValue (GoVal.int 3))) ctxDemo =
       (some (AsValue (GoVal.int 9)), none)) :=
  ⟨rfl, rfl, rfl, rfl, rfl,
   execute_error_enrichment ⟨tkDemo, "bad", none, failFilter⟩
     ⟨tkDemo, "ok", none, constFilter 9⟩
     (some (AsValue (GoVal.int 3))) (some (AsValue (GoVal.int 3)))
     (some (AsValue GoVal.nil)) (some (AsValue GoVal.nil))
     ctxDemo ctxDemo none errDemo
     (some (AsValue (GoVal.int 9))) rfl rfl rfl rfl rfl⟩

/-- C10: in Execute, when the parameter expression fails to evaluate,
the evaluation error is returned exactly as produced, with no token or
template attached, the value result is nil, and the filter function is
never invoked: the result is the same for every filter function fn. -/
theorem execute_param_error_verbatim (tok : Token) (nm : String) (pe : IEvaluator)
    (fn : FilterFunction) (ctx : ExecutionContext) (v pv : Option Value) (e : Error)
    (heval : pe ctx = (pv, some e)) :
    filterCall.Execute ⟨tok, nm, some pe, fn⟩ v ctx = (none, some e) := by
  simp [filterCall.Execute, filterCall.evalParam, heval]

/-- A sample location-free error raised by a failing argument
evaluator. -/
def evalErrDemo : Error := ⟨"execution", OrigErr.custom 3, none, none⟩

/-- A sample argument evaluator that always fails with evalErrDemo. -/
def failEval : IEvaluator := fun _ => (none, some evalErrDemo)

theorem execute_param_error_verbatim_witness :
    failEval ctxDemo = (none, some evalErrDemo) ∧
    filterCall.Execute ⟨tkDemo, "f", some failEval, constFilter 1⟩
        (some (AsValue (GoVal.int 3))) ctxDemo = (none, some evalErrDemo) :=
  ⟨rfl, execute_param_error_verbatim tkDemo "f" failEval (constFilter 1) ctxDemo
    (some (AsValue (GoVal.int 3))) none evalErrDemo rfl⟩

theorem matchTok_fst_none (p : Parser) (t : TokenType) (v : String)
    (h : (p.MatchTok t v).1 = none) : p.MatchTok t v = (none, p) := by
  unfold Parser.MatchTok at h ⊢
  cases hc : p.currentTok with
  | none => simp
  | some tok =>
      rw [hc] at h
      by_cases htv : tok.typ = t ∧ tok.val = v
      · simp [htv] at h
      · simp [htv]

/-- C7: parseFilter fails with the identifier-required syntax error
carrying no token when the current token is not an identifier (parser
p), fails with the unknown-filter error carrying the identifier token
when the name is unregistered (parser q), and resolves the registry at
parse time, storing the currently registered function on the node
(parser r, with no colon following the identifier). -/
theorem parseFilter_resolution (fs : Filters) (p q r : Parser) (tp tq tr : Token)
    (f : FilterFunction)
    (hpcur : p.currentTok = some tp) (hptyp : tp.typ ≠ TokenType.identifier)
    (hqcur : q.currentTok = some tq) (hqtyp : tq.typ = TokenType.identifier)
    (hqload : load fs tq.val = none)
    (hrcur : r.currentTok = some tr) (hrtyp : tr.typ = TokenType.identifier)
    (hrload : load fs tr.val = some f)
    (hrnc : (r.advance.MatchTok TokenType.symbol ":").1 = none) :
    parseFilter fs p =
      (p, none, some { sender := "parser",
                       origError := OrigErr.filterNameMustBeIdentifier,
                       template := none, token := none }) ∧
    parseFilter fs q =
      (q.advance, none, some { sender := "parser",
                               origError := OrigErr.filterDoesNotExist tq.val,
                               template := none, token := some tq }) ∧
    parseFilter fs r =
      (r.advance, some { token := tr, name := tr.val, parameter := none,
                         filterFunc := f }, none) := by
  refine ⟨?_, ?_, ?_⟩
  · simp [parseFilter, Parser.MatchType, hpcur, hptyp, Parser.mkErr]
  · simp [parseFilter, Parser.MatchType, hqcur, hqtyp, hqload, Parser.mkErr]
  · have hm : r.advance.MatchTok TokenType.symbol ":" = (none, r.advance) :=
      matchTok_fst_none _ _ _ hrnc
    simp [parseFilter, Parser.MatchType, hrcur, hrtyp, hrload, hm]

/-- A sample registry used to instantiate the parser theorems. -/
def fsDemo : Filters := [("up", constFilter 1)]

theorem parseFilter_resolution_witness :
    (Parser.currentTok ⟨[⟨TokenType.symbol, "|", 1, 1⟩], 0⟩ =
       some ⟨TokenType.symbol, "|", 1, 1⟩) ∧
    TokenType.symbol ≠ TokenType.identifier ∧
    (Parser.currentTok ⟨[⟨TokenType.identifier, "bogus", 1, 1⟩], 0⟩ =
       some ⟨TokenType.identifier, "bogus", 1, 1⟩) ∧
    load fsDemo "bogus" = none ∧
    (Parser.currentTok ⟨[⟨TokenType.identifier, "up", 1, 1⟩], 0⟩ =
       some ⟨TokenType.identifier, "up", 1, 1⟩) ∧
    load fsDemo "up" = some (constFilter 1) ∧
    ((Parser.advance ⟨[⟨TokenType.identifier, "up", 1, 1⟩], 0⟩).MatchTok
        TokenType.symbol ":").1 = none ∧
    (parseFilter fsDemo ⟨[⟨TokenType.symbol, "|", 1, 1⟩], 0⟩ =
       (⟨[⟨TokenType.symbol, "|", 1, 1⟩], 0⟩, none,
        some { sender := "parser",
               origError := OrigErr.filterNameMustBeIdentifier,
               template := none, token := none }) ∧
     parseFilter fsDemo ⟨[⟨TokenType.identifier, "bogus", 1, 1⟩], 0⟩ =
       (Parser.advance ⟨[⟨TokenType.identifier, "bogus", 1, 1⟩], 0⟩, none,
        some { sender := "parser",
               origError := OrigErr.filterDoesNotExist "bogus",
               template := none, token := some ⟨TokenType.identifier, "bogus", 1, 1⟩ }) ∧
     parseFilter fsDemo ⟨[⟨TokenType.identifier, "up", 1, 1⟩], 0⟩ =
       (Parser.advance ⟨[⟨TokenType.identifier, "up", 1, 1⟩], 0⟩,
        some { token := ⟨TokenType.identifier, "up", 1, 1⟩, name := "up",
               parameter := none, filterFunc := constFilter 1 }, none)) :=
  ⟨rfl, by decide, rfl, rfl, rfl, rfl, rfl,
   parseFilter_resolution fsDemo
     ⟨[⟨TokenType.symbol, "|", 1, 1⟩], 0⟩
     ⟨[⟨TokenType.identifier, "bogus", 1, 1⟩], 0⟩
     ⟨[⟨TokenType.identifier, "up", 1, 1⟩], 0⟩
     ⟨TokenType.symbol, "|", 1, 1⟩ ⟨TokenType.identifier, "bogus", 1, 1⟩
     ⟨TokenType.identifier, "up", 1, 1⟩ (constFilter 1)
     rfl (by decide) rfl rfl rfl rfl rfl rfl rfl⟩

/-- C4: early binding. Parsing an identifier token bound to f in the
registry yields a node storing f, whose Execute invokes f; after
Override installs g, the already-parsed node still invokes f (last
conjunct), and only a parse performed after the override yields a node
bound to g. -/
theorem early_binding (fs : Filters) (n : String) (f g : FilterFunction) (tk : Token)
    (htyp : tk.typ = TokenType.identifier) (hval : tk.val = n)
    (hf : load fs n = some f)
    (v fv gv : Option Value) (ctx : ExecutionContext)
    (hfv : f v (some (AsValue GoVal.nil)) ctx.Public = (fv, none))
    (hgv : g v (some (AsValue GoVal.nil)) ctx.Public = (gv, none)) :
    parseFilter fs ⟨[tk], 0⟩ =
      (⟨[tk], 1⟩, some { token := tk, name := n, parameter := none,
                         filterFunc := f }, none) ∧
    filterCall.Execute { token := tk, name := n, parameter := none, filterFunc := f }
        v ctx = (fv, none) ∧
    parseFilter (OverrideFilter fs n g).1 ⟨[tk], 0⟩ =
      (⟨[tk], 1⟩, some { token := tk, name := n, parameter := none,
                         filterFunc := g }, none) ∧
    filterCall.Execute { token := tk, name := n, parameter := none, filterFunc := g }
        v ctx = (gv, none) ∧
    filterCall.Execute { token := tk, name := n, parameter := none, filterFunc := f }
        v ctx = (fv, none) := by
  have hcur : Parser.currentTok ⟨[tk], 0⟩ = some tk := rfl
  have hadv : Parser.advance ⟨[tk], 0⟩ = (⟨[tk], 1⟩ : Parser) := rfl
  have hnone : Parser.currentTok ⟨[tk], 1⟩ = none := rfl
  refine ⟨?_, ?_, ?_, ?_, ?_⟩
  · simp [parseFilter, Parser.MatchType, Parser.MatchTok, hcur, hadv, hnone,
          htyp, hval, hf]
  · simp [filterCall.Execute, filterCall.evalParam, hfv]
  · have hg : load (OverrideFilter fs n g).1 n = some g := by
      simp [OverrideFilter, load_store_self]
    simp [parseFilter, Parser.MatchType, Parser.MatchTok, hcur, hadv, hnone,
          htyp, hval, hg]
  · simp [filterCall.Execute, filterCall.evalParam, hgv]
  · simp [filterCall.Execute, filterCall.evalParam, hfv]

theorem early_binding_witness :
    (⟨TokenType.identifier, "up", 1, 5⟩ : Token).typ = TokenType.identifier ∧
    (⟨TokenType.identifier, "up", 1, 5⟩ : Token).val = "up" ∧
    load fsDemo "up" = some (constFilter 1) ∧
    constFilter 1 (some (AsValue (GoVal.int 3))) (some (AsValue GoVal.nil))
        ctxDemo.Public = (some (AsValue (GoVal.int 1)), none) ∧
    constFilter 2 (some (AsValue (GoVal.int 3))) (some (AsValue GoVal.nil))
        ctxDemo.Public = (some (AsValue (GoVal.int 2)), none) ∧
    (parseFilter fsDemo ⟨[⟨TokenType.identifier, "up", 1, 5⟩], 0⟩ =
       (⟨[⟨TokenType.identifier, "up", 1, 5⟩], 1⟩,
        some { token := ⟨TokenType.identifier, "up", 1, 5⟩, name := "up",
               parameter := none, filterFunc := constFilter 1 }, none) ∧
     filterCall.Execute { token := ⟨TokenType.identifier, "up", 1, 5⟩, name := "up",
                          parameter := none, filterFunc := constFilter 1 }
         (some (AsValue (GoVal.int 3))) ctxDemo = (some (AsValue (GoVal.int 1)), none) ∧
     parseFilter (OverrideFilter fsDemo "up" (constFilter 2)).1
         ⟨[⟨TokenType.identifier, "up", 1, 5⟩], 0⟩ =
       (⟨[⟨TokenType.identifier, "up", 1, 5⟩], 1⟩,
        some { token := ⟨TokenType.identifier, "up", 1, 5⟩, name := "up",
               parameter := none, filterFunc := constFilter 2 }, none) ∧
     filterCall.Execute { token := ⟨TokenType.identifier, "up", 1, 5⟩, name := "up",
                          parameter := none, filterFunc := constFilter 2 }
         (some (AsValue (GoVal.int 3))) ctxDemo = (some (AsValue (GoVal.int 2)), none) ∧
     filterCall.Execute { token := ⟨TokenType.identifier, "up", 1, 5⟩, name := "up",
                          parameter := none, filterFunc := constFilter 1 }
         (some (AsValue (GoVal.int 3))) ctxDemo = (some (AsValue (GoVal.int 1)), none)) :=
  ⟨rfl, rfl, rfl, rfl, rfl,
   early_binding fsDemo "up" (constFilter 1) (constFilter 2)
     ⟨TokenType.identifier, "up", 1, 5⟩ rfl rfl rfl
     (some (AsValue (GoVal.int 3))) (some (AsValue (GoVal.int 1)))
     (some (AsValue (GoVal.int 2))) ctxDemo rfl rfl⟩

/-- C8: after the argument separator ":" is consumed, a following block
terminator makes parseFilter fail with the missing-argument error; a
following literal or variable-reference token makes parseFilter succeed
and store the argument expression produced by the expression grammar
unevaluated on the node (the parameter field holds the evaluator itself,
litEval for a literal and varEval for a variable reference). -/
theorem parseFilter_argument (fs : Filters) (f : FilterFunction)
    (tid tcol tterm targ tvar : Token)
    (hidt : tid.typ = TokenType.identifier)
    (hf : load fs tid.val = some f)
    (hcolt : tcol.typ = TokenType.symbol) (hcolv : tcol.val = ":")
    (htermt : tterm.typ = TokenType.symbol) (htermv : tterm.val = "\x7d\x7d")
    (hargt : targ.typ = TokenType.number)
    (hvart : tvar.typ = TokenType.identifier) :
    parseFilter fs ⟨[tid, tcol, tterm], 0⟩ =
      (⟨[tid, tcol, tterm], 2⟩, none,
       some { sender := "parser", origError := OrigErr.filterParameterRequired,
              template := none, token := none }) ∧
    parseFilter fs ⟨[tid, tcol, targ], 0⟩ =
      (⟨[tid, tcol, targ], 3⟩,
       some { token := tid, name := tid.val, parameter := some (litEval targ),
              filterFunc := f }, none) ∧
    parseFilter fs ⟨[tid, tcol, tvar], 0⟩ =
      (⟨[tid, tcol, tvar], 3⟩,
       some { token := tid, name := tid.val, parameter := some (varEval tvar.val),
              filterFunc := f }, none) := by
  have hterm2 : tterm.typ = TokenType.symbol ∧ tterm.val = "\x7d\x7d" := ⟨htermt, htermv⟩
  have hargne : targ.typ ≠ TokenType.identifier := by simp [hargt]
  have hargns : ¬ (targ.typ = TokenType.symbol ∧ targ.val = "\x7d\x7d") := by
    simp [hargt]
  have hvarns : ¬ (tvar.typ = TokenType.symbol ∧ tvar.val = "\x7d\x7d") := by
    simp [hvart]
  refine ⟨?_, ?_, ?_⟩
  · simp [parseFilter, Parser.MatchType, Parser.MatchTok, Parser.Peek,
          Parser.currentTok, Parser.advance, hidt, hf, hcolt, hcolv, hterm2,
          Parser.mkErr]
  · simp [parseFilter, Parser.MatchType, Parser.MatchTok, Parser.Peek,
          Parser.parseVariableOrLiteral, Parser.currentTok, Parser.advance,
          hidt, hf, hcolt, hcolv, hargns, hargne, hargt]
  · simp [parseFilter, Parser.MatchType, Parser.MatchTok, Parser.Peek,
          Parser.parseVariableOrLiteral, Parser.currentTok, Parser.advance,
          hidt, hf, hcolt, hcolv, hvarns, hvart]

/-- A sample registry holding a filter named truncate, for the argument
grammar witnesses. -/
def fsTrunc : Filters := [("truncate", constFilter 5)]

theorem parseFilter_argument_witness :
    (⟨TokenType.identifier, "truncate", 1, 1⟩ : Token).typ = TokenType.identifier ∧
    load fsTrunc "truncate" = some (constFilter 5) ∧
    (⟨TokenType.symbol, ":", 1, 9⟩ : Token).typ = TokenType.symbol ∧
    (⟨TokenType.symbol, ":", 1, 9⟩ : Token).val = ":" ∧
    (⟨TokenType.symbol, "\x7d\x7d", 1, 10⟩ : Token).typ = TokenType.symbol ∧
    (⟨TokenType.symbol, "\x7d\x7d", 1, 10⟩ : Token).val = "\x7d\x7d" ∧
    (⟨TokenType.number, "5", 1, 10⟩ : Token).typ = TokenType.number ∧
    (⟨TokenType.identifier, "n", 1, 10⟩ : Token).typ = TokenType.identifier ∧
    (parseFilter fsTrunc ⟨[⟨TokenType.identifier, "truncate", 1, 1⟩,
                           ⟨TokenType.symbol, ":", 1, 9⟩,
                           ⟨TokenType.symbol, "\x7d\x7d", 1, 10⟩], 0⟩ =
       (⟨[⟨TokenType.identifier, "truncate", 1, 1⟩,
          ⟨TokenType.symbol, ":", 1, 9⟩,
          ⟨TokenType.symbol, "\x7d\x7d", 1, 10⟩], 2⟩, none,
        some { sender := "parser", origError := OrigErr.filterParameterRequired,
               template := none, token := none }) ∧
     parseFilter fsTrunc ⟨[⟨TokenType.identifier, "truncate", 1, 1⟩,
                           ⟨TokenType.symbol, ":", 1, 9⟩,
                           ⟨TokenType.number, "5", 1, 10⟩], 0⟩ =
       (⟨[⟨TokenType.identifier, "truncate", 1, 1⟩,
          ⟨TokenType.symbol, ":", 1, 9⟩,
          ⟨TokenType.number, "5", 1, 10⟩], 3⟩,
        some { token := ⟨TokenType.identifier, "truncate", 1, 1⟩, name := "truncate",
               parameter := some (litEval ⟨TokenType.number, "5", 1, 10⟩),
               filterFunc := constFilter 5 }, none) ∧
     parseFilter fsTrunc ⟨[⟨TokenType.identifier, "truncate", 1, 1⟩,
                           ⟨TokenType.symbol, ":", 1, 9⟩,
                           ⟨TokenType.identifier, "n", 1, 10⟩], 0⟩ =
       (⟨[⟨TokenType.identifier, "truncate", 1, 1⟩,
          ⟨TokenType.symbol, ":", 1, 9⟩,
          ⟨TokenType.identifier, "n", 1, 10⟩], 3⟩,
        some { token := ⟨TokenType.identifier, "truncate", 1, 1⟩, name := "truncate",
               parameter := some (varEval "n"),
               filterFunc := constFilter 5 }, none)) :=
  ⟨rfl, rfl, rfl, rfl, rfl, rfl, rfl, rfl,
   parseFilter_argument fsTrunc (constFilter 5)
     ⟨TokenType.identifier, "truncate", 1, 1⟩ ⟨TokenType.symbol, ":", 1, 9⟩
     ⟨TokenType.symbol, "\x7d\x7d", 1, 10⟩ ⟨TokenType.number, "5", 1, 10⟩
     ⟨TokenType.identifier, "n", 1, 10⟩
     rfl rfl rfl rfl rfl rfl rfl rfl⟩

end Pongo2
